import Mathlib

/-!
Verification of the OKZ-ADMIN court-booking admin console (React client).

The repository code is JavaScript; the definitions below are a shallow
embedding of its data-handling logic.  Conventions used throughout:

* JS numbers that matter here are integer milliseconds or integer prices,
  embedded as `Int` (or `Nat` for counters).
* A possibly-absent JS field is an `Option`.  JS truthiness on numbers
  (`x || y` falls through when `x` is `0`, `undefined` or `null`) is
  embedded by `truthyOr`.
* A JS date value is a `DateVal`: `absent` (undefined / empty string,
  falsy), `invalid` (a truthy string that parses to NaN; every comparison
  with NaN is false) or `instant ms`.
* Thrown JS exceptions are `Except` errors; a `try/catch` that swallows
  becomes a `match` on the `Except`.
* `localStorage` is a total map `String → Stored α`; `Stored` records the
  three shapes a read can produce: no entry, an unparseable blob, or a
  parsed object whose `data` / `timestamp` fields may each be missing.
* `atob` + `JSON.parse` of a token segment is a platform primitive, passed
  in as a `decode` argument returning `Except Unit (Option Int)`:
  `.error ()` models a thrown decode error, `.ok none` a payload without a
  truthy `exp` claim, `.ok (some e)` a truthy `exp` claim `e` (seconds).
-/

namespace OKZ

/-- JS `x || y` on a possibly-absent number: `0` is falsy, so a present `0`
falls through to `y` exactly as in the source. -/
def truthyOr (x : Option Int) (y : Int) : Int :=
  match x with
  | some v => if v = 0 then y else v
  | none => y

/-- ASCII lowercasing of one character, as `toLowerCase` acts on the
ASCII-only strings this client compares. -/
def asciiLower (c : Char) : Char :=
  if 65 ≤ c.toNat ∧ c.toNat ≤ 90 then Char.ofNat (c.toNat + 32) else c

/-- JS `toLowerCase` on the ASCII strings compared by this client. -/
def jsToLower (s : String) : String :=
  ⟨s.data.map asciiLower⟩

/-- Whether `s` starts with `pre` (on character lists). -/
def listStartsWith : List Char → List Char → Bool
  | _, [] => true
  | [], _ :: _ => false
  | a :: as, b :: bs => (a = b) && listStartsWith as bs

/-- Leftmost non-overlapping splitting on a nonempty separator, fuelled so
that it is structural (the fuel is one more than the input length, which
always suffices since every step consumes at least one character). -/
def splitFuel (sep : List Char) : Nat → List Char → List Char → List (List Char)
  | 0, s, acc => [acc ++ s]
  | fuel + 1, s, acc =>
    match s with
    | [] => [acc]
    | c :: rest =>
      if listStartsWith (c :: rest) sep then
        acc :: splitFuel sep fuel (List.drop sep.length (c :: rest)) []
      else
        splitFuel sep fuel rest (acc ++ [c])

/-- JS `String.prototype.split(sep)` for the nonempty separators this
client uses (`'.'`, `'@'`, error-message needles). -/
def jsSplit (s sep : String) : List String :=
  if sep.data = [] then [s]
  else (splitFuel sep.data (s.data.length + 1) s.data []).map fun l => ⟨l⟩

/-- JS `String.prototype.includes` for a nonempty needle: splitting on the
needle yields at least two pieces exactly when it occurs. -/
def strIncludes (s sub : String) : Bool :=
  2 ≤ (jsSplit s sub).length

/-- A JS date-ish field: absent (falsy), invalid (parses to NaN), or a
definite epoch-millisecond instant. -/
inductive DateVal where
  | absent : DateVal
  | invalid : DateVal
  | instant (ms : Int) : DateVal
deriving DecidableEq, Repr

/-- `new Date(d) >= x` — false when `d` is NaN or built from undefined. -/
def dGe (d : DateVal) (x : Int) : Bool :=
  match d with
  | .instant v => decide (x ≤ v)
  | _ => false

/-- `new Date(d) <= x` — false when the date is not a definite instant. -/
def dLe (d : DateVal) (x : Int) : Bool :=
  match d with
  | .instant v => decide (v ≤ x)
  | _ => false

/-- `new Date(d) > x` — false when the date is not a definite instant. -/
def dGt (d : DateVal) (x : Int) : Bool :=
  match d with
  | .instant v => decide (x < v)
  | _ => false

/-- `new Date(d) < x` — false when the date is not a definite instant. -/
def dLt (d : DateVal) (x : Int) : Bool :=
  match d with
  | .instant v => decide (v < x)
  | _ => false

/-- A booking record as this client reads it: every field the fetched JSON
may or may not carry, plus the two locally derived annotation fields. -/
structure Booking where
  price : Option Int
  revenue : Option Int
  status : Option String
  courtType : Option String
  date : DateVal
  time : DateVal
  displayStatus : Option String
  paymentStatus : Option String
deriving DecidableEq, Repr

/-- `b.status?.toLowerCase() === 'cancelled'`. -/
def isCancelled (b : Booking) : Bool :=
  decide (b.status.map jsToLower = some "cancelled")

/-- The court-type price table used in the defaulting expressions:
`courtType?.toLowerCase() === 'padel' ? 400 : 150`. -/
def defaultPrice (courtType : Option String) : Int :=
  if courtType.map jsToLower = some "padel" then 400 else 150

/-- What a `localStorage.getItem` + `JSON.parse` round trip can yield:
no entry at the key, a blob on which parsing or destructuring throws, or a
parsed object whose `data` and `timestamp` fields may each be missing. -/
inductive Stored (α : Type) where
  | absent : Stored α
  | malformed : Stored α
  | entry (data : Option α) (timestamp : Option Int) : Stored α
deriving DecidableEq, Repr

/-- `cache.load` of Dashboard and History (identical up to the
`dashboard_` / `history_` key prefix), applied to the stored value at the
requested key.  A missing `timestamp` makes `Date.now() - timestamp` NaN,
and `NaN < maxAge` is false, so the function falls through to `null`. -/
def cacheLoad (now : Int) (stored : Stored α) (maxAge : Int) : Option α :=
  match stored with
  | .absent => none
  | .malformed => none
  | .entry d t =>
    match t with
    | none => none
    | some ts => if now - ts < maxAge then d else none

/-- `cache.load` as a storage operation: it only ever calls `getItem`, so
the second component (the storage after the call) is the storage before. -/
def cacheLoadOp (now : Int) (store : String → Stored α) (key : String)
    (maxAge : Int) : Option α × (String → Stored α) :=
  (cacheLoad now (store key) maxAge, store)

/-- `cache.save`: writes `{data, timestamp: Date.now()}` at the key; a
`setItem` failure (modelled by `writeFails`) is swallowed by the
`try/catch`, leaving the storage untouched. -/
def cacheSave (now : Int) (store : String → Stored α) (key : String)
    (v : α) (writeFails : Bool) : String → Stored α :=
  if writeFails then store
  else fun k => if k = key then .entry (some v) (some now) else store k

namespace DashboardFallbacks

/-- `DashboardFallbacks.calculateRevenue`: cancelled bookings are skipped,
every other booking contributes `b.price || b.revenue || 0`. -/
def calculateRevenue (bookings : List Booking) : Int :=
  bookings.foldl
    (fun sum b => if isCancelled b then sum else sum + truthyOr b.price (truthyOr b.revenue 0))
    0

/-- `new Date(b.date || b.time)` in the Dashboard categorizer: the `time`
field is consulted only when `date` is falsy. -/
def resolvedDate (b : Booking) : DateVal :=
  match b.date with
  | .absent => b.time
  | d => d

/-- `DashboardFallbacks.categorizeBookings` on a (non-null, array)
schedule. `todayStart` is local midnight; `endOfToday` is
`todayStart + 86399999` (23:59:59.999). -/
def categorizeBookings (todayStart : Int) (schedule : List Booking) :
    List Booking × List Booking × List Booking :=
  (schedule.filter fun b =>
      dGe (resolvedDate b) todayStart && dLe (resolvedDate b) (todayStart + 86399999),
   schedule.filter fun b => dGt (resolvedDate b) (todayStart + 86399999),
   schedule.filter fun b => dLt (resolvedDate b) todayStart)

/-- The booking normalization in `fetchOverviewData` (Dashboard.jsx):
`price: booking.price || booking.revenue || (padel ? 400 : 150)` and a
derived `displayStatus`. -/
def normalizeBooking (b : Booking) : Booking :=
  { b with
    price := some (truthyOr b.price (truthyOr b.revenue (defaultPrice b.courtType)))
    displayStatus := some (if isCancelled b then "cancelled" else "paid") }

/-- One step of the simple Dashboard retry loop (Dashboard.jsx), indexed by
the current attempt `i` and the number of iterations the `for` loop still
has (`maxRetries - i`).  The result records the value returned or thrown,
how many times `fn` was invoked, and the backoff delays awaited.  With no
iterations left the loop body never runs and the function returns
JS `undefined`, modelled as `.ok none`. -/
def retryGo (fn : Nat → Except String α) : Nat → Nat → Except String (Option α) × Nat × List Nat
  | _, 0 => (.ok none, 0, [])
  | i, 1 =>
    match fn i with
    | .ok a => (.ok (some a), 1, [])
    | .error e => (.error e, 1, [])
  | i, (r+2) =>
    match fn i with
    | .ok a => (.ok (some a), 1, [])
    | .error _ =>
      let res := retryGo fn (i+1) (r+1)
      (res.1, res.2.1 + 1, (1000 * 2 ^ i) :: res.2.2)

/-- `DashboardFallbacks.retry(fn, maxRetries = 2)`: rethrows only on the
last attempt; there is no classification of the error, so every error is
retried with backoff `1000 * 2^i`. -/
def retry (fn : Nat → Except String α) (maxRetries : Nat) :
    Except String (Option α) × Nat × List Nat :=
  retryGo fn 0 maxRetries

end DashboardFallbacks

namespace HistoryFallbacks

/-- `HistoryFallbacks.calculateRevenue`: the amount is
`b.price || b.revenue || (padel ? 400 : 150)` and a cancelled booking
contributes `0`. -/
def calculateRevenue (bookings : List Booking) : Int :=
  bookings.foldl
    (fun sum b =>
      if isCancelled b then sum
      else sum + truthyOr b.price (truthyOr b.revenue (defaultPrice b.courtType)))
    0

/-- `HistoryFallbacks.simplifyPayment`: derives `paymentStatus` and fills
`revenue` with `price || revenue || (padel ? 400 : 150)`. -/
def simplifyPayment (b : Booking) : Booking :=
  { b with
    paymentStatus := some (if isCancelled b then "refunded" else "paid")
    revenue := some (truthyOr b.price (truthyOr b.revenue (defaultPrice b.courtType))) }

/-- `HistoryFallbacks.categorizeBookings`: same `today` band as the
Dashboard, but `upcoming` is capped at 30 days ahead (end of day) and
`past` at 30 days back (midnight).  `30 * 86400000 = 2592000000`. -/
def categorizeBookings (todayStart : Int) (bookings : List Booking) :
    List Booking × List Booking × List Booking :=
  (bookings.filter fun b =>
      dGe b.date todayStart && dLe b.date (todayStart + 86399999),
   bookings.filter fun b =>
      dGt b.date (todayStart + 86399999) &&
        dLe b.date (todayStart + 2592000000 + 86399999),
   bookings.filter fun b =>
      dLt b.date todayStart && dGe b.date (todayStart - 2592000000))

/-- The auth classification inside `HistoryFallbacks.retry`:
`err.message?.includes('401') || err.message?.includes('Session expired')`. -/
def isAuthMessage (msg : String) : Bool :=
  strIncludes msg "401" || strIncludes msg "Session expired"

/-- One step of the History retry loop, indexed by the attempt `i` and the
remaining iterations.  On the last iteration the loop breaks and the saved
`lastError` is thrown; earlier iterations rethrow immediately on an
auth-classified error and otherwise wait `1000 * 2^i` and continue.  With
no iterations left the loop never runs and the JS function throws the
still-undefined `lastError`, modelled as `.error none`. -/
def retryGo (fn : Nat → Except String α) : Nat → Nat → Except (Option String) α × Nat × List Nat
  | _, 0 => (.error none, 0, [])
  | i, 1 =>
    match fn i with
    | .ok a => (.ok a, 1, [])
    | .error e => (.error (some e), 1, [])
  | i, (r+2) =>
    match fn i with
    | .ok a => (.ok a, 1, [])
    | .error e =>
      if isAuthMessage e then (.error (some e), 1, [])
      else
        let res := retryGo fn (i+1) (r+1)
        (res.1, res.2.1 + 1, (1000 * 2 ^ i) :: res.2.2)

/-- `HistoryFallbacks.retry(fn, maxRetries = 3)`. -/
def retry (fn : Nat → Except String α) (maxRetries : Nat) :
    Except (Option String) α × Nat × List Nat :=
  retryGo fn 0 maxRetries

/-- `HistoryFallbacks.messages.network`. -/
def msgNetwork : String := "Network connection lost. Showing cached data."

/-- `HistoryFallbacks.messages.timeout`. -/
def msgTimeout : String := "Request timed out. Please try again."

/-- `HistoryFallbacks.messages.server`. -/
def msgServer : String := "Server error. Using cached data."

/-- `HistoryFallbacks.messages.default`. -/
def msgDefault : String := "Unable to load history data."

/-- The failure tracker: `failureCount` starts at 0 and `lastFailure` at
`null`; JS arithmetic coerces that `null` to `0`. -/
structure Breaker where
  failureCount : Nat
  lastFailure : Option Int
deriving DecidableEq, Repr

/-- `Date.now() - this.lastFailure` with the JS `null → 0` coercion. -/
def elapsed (now : Int) (st : Breaker) : Int :=
  now - (st.lastFailure.getD 0)

/-- `HistoryFallbacks.recordFailure`. -/
def recordFailure (now : Int) (st : Breaker) : Breaker :=
  { failureCount := st.failureCount + 1, lastFailure := some now }

/-- `HistoryFallbacks.shouldBlock`: returns whether to block, and the
tracker afterwards (the second branch resets the count without blocking). -/
def shouldBlock (now : Int) (st : Breaker) : Bool × Breaker :=
  if 5 ≤ st.failureCount ∧ elapsed now st < 300000 then (true, st)
  else if elapsed now st > 300000 then (false, { st with failureCount := 0 })
  else (false, st)

/-- Outcome of the guard at the top of `fetchHistory`. -/
inductive GateResult where
  | blocked (msg : String) : GateResult
  | proceed : GateResult
deriving DecidableEq, Repr

/-- The circuit-breaker guard at the top of `fetchHistory`: when
`shouldBlock` fires, the function sets the error text and returns before
the network operation is even constructed. -/
def fetchGate (now : Int) (st : Breaker) : GateResult × Breaker :=
  let r := shouldBlock now st
  if r.1 then (.blocked "Too many failed attempts. Please try again later.", r.2)
  else (.proceed, r.2)

/-- `HistoryFallbacks.validateSession`: requires both keys, and rejects a
three-segment token only when a decodable truthy `exp` claim satisfies
`exp * 1000 < Date.now()`; decode failures are swallowed and there is no
login-timestamp fallback — every other case returns `true`. -/
def validateSession (decode : String → Except Unit (Option Int)) (now : Int)
    (email token : Option String) : Bool :=
  match token, email with
  | some tk, some _ =>
    match jsSplit tk "." with
    | [_, mid, _] =>
      match decode mid with
      | .ok (some e) => decide (¬ e * 1000 < now)
      | _ => true
    | _ => true
  | _, _ => false

/-- The `catch` block of `fetchHistory` after `recordFailure`: with a cache
entry inside the 24-hour fallback window the cached list is re-simplified
and shown under a classified banner; otherwise the raw message (or the
default when the message is empty) is shown with no data. -/
inductive FetchView where
  | degraded (shown : List Booking) (banner : String) : FetchView
  | failed (banner : String) : FetchView
deriving DecidableEq, Repr

/-- Banner classification order of the `catch` block: timeout first, then
offline, then the server-error message. -/
def classifyBanner (errMsg : String) (online : Bool) : String :=
  if errMsg = "Request timeout" then msgTimeout
  else if online = false then msgNetwork
  else msgServer

/-- The cache-fallback branch of `fetchHistory`: load `history_all` with
the 86400000 ms window and render accordingly. -/
def historyCatch (now : Int) (store : String → Stored (List Booking))
    (errMsg : String) (online : Bool) : FetchView :=
  match cacheLoad now (store "history_all") 86400000 with
  | some data => .degraded (data.map simplifyPayment) (classifyBanner errMsg online)
  | none => .failed (if errMsg = "" then msgDefault else errMsg)

end HistoryFallbacks

/-- `totalRevenue` of the second `History` component in History.jsx
(line 1232): `filteredBookings.reduce((sum, b) => sum + (b.revenue || 0), 0)`
with no status check at all. -/
def totalRevenueSecond (bookings : List Booking) : Int :=
  bookings.foldl (fun sum b => sum + truthyOr b.revenue 0) 0

namespace AppFallbacks

/-- The character class `[^\s@]` of the email pattern (JS whitespace
approximated by `Char.isWhitespace`). -/
def emailChar (c : Char) : Bool :=
  !c.isWhitespace && c ≠ '@'

/-- The test `/^[^\s@]+@[^\s@]+\.[^\s@]+$/.test(email)`: exactly one `@`,
a nonempty local part, no whitespace, and a dot at an interior position of
the domain part (the pieces around that dot may themselves contain dots,
matching the greedy classes of the pattern). -/
def emailMatches (s : String) : Bool :=
  match jsSplit s "@" with
  | [a, b] =>
    a.toList ≠ [] && a.toList.all emailChar && b.toList.all emailChar &&
      ((b.toList.drop 1).dropLast.contains '.')
  | _ => false

/-- `AppFallbacks.validateSession`: both keys present, token at least 10
characters, email matching the pattern. -/
def validateSession (email token : Option String) : Bool :=
  match email, token with
  | some em, some tk =>
    if tk.length < 10 then false else emailMatches em
  | _, _ => false

/-- The login-timestamp fallback inside `checkTokenExpiry`:
expired when the stored session is older than 24 hours; with no stored
login time the function reaches its final `return false`. -/
def loginAgeExpired (now : Int) (loginTime : Option Int) : Bool :=
  match loginTime with
  | some lt => decide (now - lt > 24 * 60 * 60 * 1000)
  | none => false

/-- `AppFallbacks.checkTokenExpiry` (true means expired): no token is
expired; with a three-segment token a decode failure is caught by the
outer `try` and yields `false` (assume not expired), a truthy `exp` claim
yields `Date.now() >= exp * 1000`, and otherwise — like any non-JWT
token — the login-timestamp fallback decides. -/
def checkTokenExpiry (decode : String → Except Unit (Option Int)) (now : Int)
    (token : Option String) (loginTime : Option Int) : Bool :=
  match token with
  | none => true
  | some tk =>
    match jsSplit tk "." with
    | [_, mid, _] =>
      match decode mid with
      | .error _ => false
      | .ok (some e) => decide (now ≥ e * 1000)
      | .ok none => loginAgeExpired now loginTime
    | _ => loginAgeExpired now loginTime

/-- The composite session check used by `ProtectedRoute` and on app load:
`validateSession() && !checkTokenExpiry()` (credential presence is
subsumed by `validateSession`). -/
def sessionValid (decode : String → Except Unit (Option Int)) (now : Int)
    (email token : Option String) (loginTime : Option Int) : Bool :=
  validateSession email token && !checkTokenExpiry decode now token loginTime

/-- `AppFallbacks.network.subscribe` registration: `listeners.push(l)`.
Listener identity (JS function reference) is modelled by `Nat`. -/
def subscribe (listeners : List Nat) (l : Nat) : List Nat :=
  listeners ++ [l]

/-- The unsubscribe closure returned by `subscribe`:
`this.listeners = this.listeners.filter(x => x !== l)`. -/
def unsubscribe (listeners : List Nat) (l : Nat) : List Nat :=
  listeners.filter fun x => x ≠ l

/-- An online/offline transition: `this.listeners.forEach(fn => fn(b))`
as the list of invocations it performs. -/
def notifyAll (listeners : List Nat) (b : Bool) : List (Nat × Bool) :=
  listeners.map fun l => (l, b)

end AppFallbacks

/-- Modelled from the spec: the Session Store contract `isValid()` exactly
as the claim words it — false when identity or token is absent; with a
three-segment token whose middle segment decodes to an `exp` claim, false
iff the expiry is not after the current time; with no such claim, the
stored login timestamp is compared against a fixed 24-hour window.  Used
only to exhibit where the History implementation departs from the claim. -/
def specSessionValid (decode : String → Except Unit (Option Int)) (now : Int)
    (email token : Option String) (loginTime : Option Int) : Bool :=
  match email, token with
  | some _, some tk =>
    match jsSplit tk "." with
    | [_, mid, _] =>
      match decode mid with
      | .ok (some e) => decide (now < e * 1000)
      | _ => specLoginWindow now loginTime
    | _ => specLoginWindow now loginTime
  | _, _ => false
where
  /-- The claimed 24-hour validity window on the stored login timestamp. -/
  specLoginWindow (now : Int) (loginTime : Option Int) : Bool :=
    match loginTime with
    | some lt => decide (now - lt ≤ 24 * 60 * 60 * 1000)
    | none => false

/-- A decode environment that never succeeds (the token of interest has no
three-segment shape, so it is never consulted). -/
def decodeNever : String → Except Unit (Option Int) := fun _ => .error ()

/-- A decode environment agreeing with `atob` / `JSON.parse` on the one
segment of interest: `atob "eyJleHAiOjF9"` is the payload with `exp = 1`. -/
def decodeExpOne : String → Except Unit (Option Int) :=
  fun s => if s = "eyJleHAiOjF9" then .ok (some 1) else .error ()

/-- A cancelled booking carrying a stored revenue of 400. -/
def bookingCancelled400 : Booking :=
  { price := none, revenue := some 400, status := some "cancelled",
    courtType := none, date := .absent, time := .absent,
    displayStatus := none, paymentStatus := none }

/-- A padel booking whose stored price is the (falsy) number 0 and whose
stored revenue is 200. -/
def bookingZeroPrice : Booking :=
  { price := some 0, revenue := some 200, status := some "paid",
    courtType := some "padel", date := .absent, time := .absent,
    displayStatus := none, paymentStatus := none }

/-- A plain booking with a definite price, for witnesses. -/
def bookingPlain : Booking :=
  { price := some 500, revenue := none, status := some "paid",
    courtType := some "tennis", date := .instant 1000, time := .absent,
    displayStatus := none, paymentStatus := none }

/-- A one-entry storage, for witnesses: the `overview` key holds payload
`42` saved at time `0`. -/
def storeOverview42 : String → Stored Int :=
  fun k => if k = "overview" then .entry (some 42) (some 0) else .absent

/-- A storage whose `history_all` key holds the singleton plain-booking
list saved at time `0`, for witnesses. -/
def storeHistoryPlain : String → Stored (List Booking) :=
  fun k => if k = "history_all" then .entry (some [bookingPlain]) (some 0) else .absent

/- ===================== theorems ===================== -/

section Theorems

/-- A `foldl` that skips the elements satisfying `q` and adds `f` of the
rest computes the sum of `f` over the filtered-out complement. -/
theorem foldl_skip_add (f : Booking → Int) (q : Booking → Bool) :
    ∀ (bs : List Booking) (i : Int),
      bs.foldl (fun s b => if q b then s else s + f b) i =
        i + ((bs.filter fun b => !q b).map f).sum := by
  intro bs
  induction bs with
  | nil => intro i; simp
  | cons hd tl ih =>
    intro i
    cases hq : q hd <;> simp [List.filter_cons, hq, ih, add_assoc]

/-- A `foldl` that adds `f` of every element computes the sum of the map. -/
theorem foldl_add (f : Booking → Int) :
    ∀ (bs : List Booking) (i : Int),
      bs.foldl (fun s b => s + f b) i = i + (bs.map f).sum := by
  intro bs
  induction bs with
  | nil => intro i; simp
  | cons hd tl ih => intro i; simp [ih, add_assoc]

/-- Claim C1 (amended): the Dashboard `calculateRevenue` and the History
fallback revenue sum the per-booking amount over exactly the bookings
whose status is not (case-insensitively) `cancelled`, so a cancelled
booking contributes 0 regardless of its stored price; the `totalRevenue`
of the second History component, however, sums `b.revenue || 0` over all
bookings with no status check, so there a cancelled booking contributes
its stored revenue. -/
theorem C1_revenue_amended :
    (∀ bs, DashboardFallbacks.calculateRevenue bs =
      ((bs.filter fun b => !isCancelled b).map
        fun b => truthyOr b.price (truthyOr b.revenue 0)).sum) ∧
    (∀ bs, HistoryFallbacks.calculateRevenue bs =
      ((bs.filter fun b => !isCancelled b).map
        fun b => truthyOr b.price (truthyOr b.revenue (defaultPrice b.courtType))).sum) ∧
    (∀ bs, totalRevenueSecond bs = (bs.map fun b => truthyOr b.revenue 0).sum) := by
  refine ⟨fun bs => ?_, fun bs => ?_, fun bs => ?_⟩
  · simpa using foldl_skip_add (fun b => truthyOr b.price (truthyOr b.revenue 0)) isCancelled bs 0
  · simpa using
      foldl_skip_add (fun b => truthyOr b.price (truthyOr b.revenue (defaultPrice b.courtType)))
        isCancelled bs 0
  · simpa using foldl_add (fun b => truthyOr b.revenue 0) bs 0

/-- Claim C1 counterexample: on the booking list containing one cancelled
booking with stored revenue 400, the second History component computes a
total revenue of 400, while the sum of the amount over the non-cancelled
bookings is 0 — so that computed total is not the claimed sum. -/
theorem C1_revenue_counterexample :
    totalRevenueSecond [bookingCancelled400] = 400 ∧
    (([bookingCancelled400].filter fun b => !isCancelled b).map
      fun b => truthyOr b.revenue 0).sum = 0 ∧
    totalRevenueSecond [bookingCancelled400] ≠
      (([bookingCancelled400].filter fun b => !isCancelled b).map
        fun b => truthyOr b.revenue 0).sum := by
  refine ⟨by decide, by decide, by decide⟩

/-- Claim C2: for a stored cache entry carrying both a payload and a
timestamp, `load` returns the payload exactly when `now - timestamp` is
strictly below `maxAge`; at exactly `maxAge` (and any other non-fresh age)
it returns null; and the operation leaves the storage untouched, so the
stale entry stays in place. -/
theorem C2_cacheLoad_boundary :
    ∀ (now ts maxAge d : Int) (store : String → Stored Int) (key : String),
      store key = .entry (some d) (some ts) →
      ((cacheLoadOp now store key maxAge).1 = some d ↔ now - ts < maxAge) ∧
      (now - ts = maxAge → (cacheLoadOp now store key maxAge).1 = none) ∧
      (¬ now - ts < maxAge → (cacheLoadOp now store key maxAge).1 = none) ∧
      (cacheLoadOp now store key maxAge).2 = store := by
  intro now ts maxAge d store key h
  refine ⟨?_, ?_, ?_, rfl⟩
  · by_cases hlt : now - ts < maxAge <;> simp [cacheLoadOp, cacheLoad, h, hlt]
  · intro heq
    have hlt : ¬ now - ts < maxAge := by omega
    simp [cacheLoadOp, cacheLoad, h, hlt]
  · intro hlt
    simp [cacheLoadOp, cacheLoad, h, hlt]

/-- Witness for C2 at a concrete storage: the entry saved at time 0 is
returned at `now = 100` under a 300000 ms window and is null at exactly
`now = 300000`. -/
theorem C2_cacheLoad_witness :
    (cacheLoadOp 100 storeOverview42 "overview" 300000).1 = some 42 ∧
    (cacheLoadOp 300000 storeOverview42 "overview" 300000).1 = none := by
  constructor
  · exact ((C2_cacheLoad_boundary 100 0 300000 42 storeOverview42 "overview"
      (by decide)).1).mpr (by decide)
  · exact (C2_cacheLoad_boundary 300000 0 300000 42 storeOverview42 "overview"
      (by decide)).2.1 (by decide)

/-- Claim C10: the cache interface is total — a failing storage write is
swallowed by `save` (the storage is simply left unchanged), a successful
`save` overwrites exactly the requested key, and `load` returns null
(rather than throwing) for an absent value, for an unparseable value, and
for a parsed object with no timestamp field. -/
theorem C10_cacheTotal :
    (∀ (st : String → Stored Int) k (v : Int) now, cacheSave now st k v true = st) ∧
    (∀ (st : String → Stored Int) k v now,
      (cacheSave now st k v false) k = .entry (some v) (some now)) ∧
    (∀ (st : String → Stored Int) k v now kk, kk ≠ k →
      (cacheSave now st k v false) kk = st kk) ∧
    (∀ now maxAge, cacheLoad now (Stored.absent : Stored Int) maxAge = none) ∧
    (∀ now maxAge, cacheLoad now (Stored.malformed : Stored Int) maxAge = none) ∧
    (∀ now maxAge (d : Option Int), cacheLoad now (Stored.entry d none) maxAge = none) := by
  refine ⟨fun st k v now => rfl, fun st k v now => by simp [cacheSave],
    fun st k v now kk hkk => by simp [cacheSave, hkk],
    fun now maxAge => rfl, fun now maxAge => rfl, fun now maxAge d => rfl⟩

/-- Witness for C10 at concrete keys: a successful save at `overview`
leaves the (distinct) key `other` reading as before. -/
theorem C10_cacheTotal_witness :
    (cacheSave 5 storeOverview42 "overview" 7 false) "other" = storeOverview42 "other" :=
  C10_cacheTotal.2.2.1 storeOverview42 "overview" 7 5 "other" (by decide)

/-- Claim C4 counterexample: with the counter at 5 and the last failure
recorded at time 0, a call at exactly five minutes later
(elapsed = 300000 ms) does proceed, but the failure counter stays at 5 —
it is not reset to 0 as the claim states; the reset requires strictly more
than five minutes. -/
theorem C4_breaker_counterexample :
    (HistoryFallbacks.shouldBlock 300000 ⟨5, some 0⟩).1 = false ∧
    (HistoryFallbacks.shouldBlock 300000 ⟨5, some 0⟩).2.failureCount = 5 := by
  refine ⟨by decide, by decide⟩

/-- Claim C4 (amended): each recorded failure bumps the counter and stamps
the failure time; once the counter has reached 5 and the last failure is
less than five minutes old, the next `fetchHistory` call short-circuits
with the too-many-failures error before any network operation, leaving the
tracker unchanged; and once strictly more than five minutes have elapsed
since the last failure the counter resets to 0 and the call proceeds. -/
theorem C4_breaker_amended :
    (∀ (st : HistoryFallbacks.Breaker) t,
      (HistoryFallbacks.recordFailure t st).failureCount = st.failureCount + 1 ∧
      (HistoryFallbacks.recordFailure t st).lastFailure = some t) ∧
    (∀ (st : HistoryFallbacks.Breaker) now, 5 ≤ st.failureCount →
      HistoryFallbacks.elapsed now st < 300000 →
      HistoryFallbacks.fetchGate now st =
        (.blocked "Too many failed attempts. Please try again later.", st)) ∧
    (∀ (st : HistoryFallbacks.Breaker) now, HistoryFallbacks.elapsed now st > 300000 →
      HistoryFallbacks.fetchGate now st = (.proceed, { st with failureCount := 0 })) := by
  refine ⟨fun st t => ⟨rfl, rfl⟩, fun st now h5 hlt => ?_, fun st now hgt => ?_⟩
  · simp [HistoryFallbacks.fetchGate, HistoryFallbacks.shouldBlock, h5, hlt]
  · have h1 : ¬ (5 ≤ st.failureCount ∧ HistoryFallbacks.elapsed now st < 300000) :=
      fun h => by omega
    simp [HistoryFallbacks.fetchGate, HistoryFallbacks.shouldBlock, h1, hgt]

/-- Witness for C4 at a concrete tracker: with 5 failures, the last one
100 ms ago, the gate blocks without reaching the network. -/
theorem C4_breaker_witness :
    HistoryFallbacks.fetchGate 100 ⟨5, some 0⟩ =
      (.blocked "Too many failed attempts. Please try again later.", ⟨5, some 0⟩) :=
  C4_breaker_amended.2.1 ⟨5, some 0⟩ 100 (by decide) (by decide)

/-- Claim C6 counterexample: the padel booking whose stored price is the
number 0 (with stored revenue 200) does not keep its price — the JS
truthiness chain replaces it with the revenue, so the claim that a booking
already carrying a price keeps it fails at this input. -/
theorem C6_defaultPrice_counterexample :
    bookingZeroPrice.price = some 0 ∧
    (DashboardFallbacks.normalizeBooking bookingZeroPrice).price = some 200 ∧
    (DashboardFallbacks.normalizeBooking bookingZeroPrice).price ≠ bookingZeroPrice.price := by
  refine ⟨rfl, by decide, by decide⟩

/-- Claim C6 (amended): the fetch normalization and `simplifyPayment`
default the amount through the JS truthiness chain
`price || revenue || (padel ? 400 : 150)`: a nonzero stored price is kept;
a missing or zero price falls through to a nonzero stored revenue; and
only when both are missing or zero is the court-type default used — 400
for padel (case-insensitively) and 150 for tennis or any other court
type. -/
theorem C6_defaultPrice_amended :
    (∀ (b : Booking) p, b.price = some p → p ≠ 0 →
      (DashboardFallbacks.normalizeBooking b).price = some p ∧
      (HistoryFallbacks.simplifyPayment b).revenue = some p) ∧
    (∀ (b : Booking) r, (b.price = none ∨ b.price = some 0) →
      b.revenue = some r → r ≠ 0 →
      (DashboardFallbacks.normalizeBooking b).price = some r) ∧
    (∀ (b : Booking), (b.price = none ∨ b.price = some 0) →
      (b.revenue = none ∨ b.revenue = some 0) →
      (DashboardFallbacks.normalizeBooking b).price = some (defaultPrice b.courtType) ∧
      (HistoryFallbacks.simplifyPayment b).revenue = some (defaultPrice b.courtType)) ∧
    defaultPrice (some "padel") = 400 ∧ defaultPrice (some "Padel") = 400 ∧
    defaultPrice (some "tennis") = 150 ∧ defaultPrice none = 150 := by
  refine ⟨fun b p hp hp0 => ?_, fun b r hp hr hr0 => ?_, fun b hp hr => ?_,
    by decide, by decide, by decide, by decide⟩
  · constructor <;>
      simp [DashboardFallbacks.normalizeBooking, HistoryFallbacks.simplifyPayment,
        truthyOr, hp, hp0]
  · rcases hp with hp | hp <;>
      simp [DashboardFallbacks.normalizeBooking, truthyOr, hp, hr, hr0]
  · constructor <;> rcases hp with hp | hp <;> rcases hr with hr | hr <;>
      simp [DashboardFallbacks.normalizeBooking, HistoryFallbacks.simplifyPayment,
        truthyOr, hp, hr]

/-- Witness for C6: a booking with stored price 500 keeps it in both the
Dashboard normalization and the History payment simplification. -/
theorem C6_defaultPrice_witness :
    (DashboardFallbacks.normalizeBooking bookingPlain).price = some 500 ∧
    (HistoryFallbacks.simplifyPayment bookingPlain).revenue = some 500 :=
  C6_defaultPrice_amended.1 bookingPlain 500 rfl (by decide)

/-- Claim C7 counterexample: a listener registered twice and unsubscribed
once is gone entirely — the `filter`-based unsubscribe removes both
registrations, so the listener receives no notification on the next
transition, contradicting the remove-exactly-one claim. -/
theorem C7_subscribe_counterexample :
    AppFallbacks.unsubscribe (AppFallbacks.subscribe (AppFallbacks.subscribe [] 7) 7) 7 = [] ∧
    AppFallbacks.unsubscribe (AppFallbacks.subscribe (AppFallbacks.subscribe [] 7) 7) 7 ≠ [7] ∧
    AppFallbacks.notifyAll
        (AppFallbacks.unsubscribe (AppFallbacks.subscribe (AppFallbacks.subscribe [] 7) 7) 7)
        true = [] := by
  refine ⟨by decide, by decide, by decide⟩

/-- Claim C7 (amended): `subscribe` appends a registration (so the same
listener may be registered many times), the unsubscribe closure removes
every registration of that listener (not exactly one), registrations of
other listeners are untouched, and every listener still registered is
invoked with the new boolean on a transition. -/
theorem C7_subscribe_amended :
    (∀ (ls : List Nat) l, AppFallbacks.subscribe ls l = ls ++ [l]) ∧
    (∀ (ls : List Nat) l, l ∉ AppFallbacks.unsubscribe ls l) ∧
    (∀ (ls : List Nat) l x, x ≠ l →
      (AppFallbacks.unsubscribe ls l).count x = ls.count x) ∧
    (∀ (ls : List Nat) (b : Bool) x, x ∈ ls → (x, b) ∈ AppFallbacks.notifyAll ls b) := by
  refine ⟨fun ls l => rfl, fun ls l => ?_, fun ls l x hx => ?_, fun ls b x hx => ?_⟩
  · simp [AppFallbacks.unsubscribe]
  · exact List.count_filter (by simpa using hx)
  · exact List.mem_map_of_mem _ hx

/-- Witness for C7: unsubscribing listener 7 from `[3, 7]` leaves the
count of listener 3 unchanged. -/
theorem C7_subscribe_witness :
    (AppFallbacks.unsubscribe [3, 7] 7).count 3 = ([3, 7] : List Nat).count 3 :=
  C7_subscribe_amended.2.2.1 [3, 7] 7 3 (by decide)

/-- Claim C8: when the History fetch fails with a cache entry inside the
24-hour fallback window, the cached payload is re-simplified and rendered
with a banner classified in order — the timeout message for a request
timeout, the offline message when the monitor reports offline, and the
server-error message for any other failure; with no usable cache entry the
raw error message is shown instead. -/
theorem C8_errorFallback :
    (∀ (now : Int) (store : String → Stored (List Booking)) errMsg online d ts,
      store "history_all" = .entry (some d) (some ts) → now - ts < 86400000 →
      HistoryFallbacks.historyCatch now store errMsg online =
        .degraded (d.map HistoryFallbacks.simplifyPayment)
          (HistoryFallbacks.classifyBanner errMsg online)) ∧
    (∀ online, HistoryFallbacks.classifyBanner "Request timeout" online =
      HistoryFallbacks.msgTimeout) ∧
    (∀ errMsg, errMsg ≠ "Request timeout" →
      HistoryFallbacks.classifyBanner errMsg false = HistoryFallbacks.msgNetwork) ∧
    (∀ errMsg, errMsg ≠ "Request timeout" →
      HistoryFallbacks.classifyBanner errMsg true = HistoryFallbacks.msgServer) ∧
    (∀ (now : Int) (store : String → Stored (List Booking)) errMsg online,
      cacheLoad now (store "history_all") 86400000 = none → errMsg ≠ "" →
      HistoryFallbacks.historyCatch now store errMsg online = .failed errMsg) := by
  refine ⟨fun now store errMsg online d ts hst hfresh => ?_,
    fun online => rfl, fun errMsg h => ?_, fun errMsg h => ?_,
    fun now store errMsg online hload hmsg => ?_⟩
  · simp [HistoryFallbacks.historyCatch, cacheLoad, hst, hfresh]
  · simp [HistoryFallbacks.classifyBanner, h]
  · simp [HistoryFallbacks.classifyBanner, h]
  · simp [HistoryFallbacks.historyCatch, hload, hmsg]

/-- Witness for C8 at a concrete storage: a timeout failure over a
fresh-enough cached list renders the simplified cache under the timeout
banner. -/
theorem C8_errorFallback_witness :
    HistoryFallbacks.historyCatch 100 storeHistoryPlain "Request timeout" true =
      .degraded ([bookingPlain].map HistoryFallbacks.simplifyPayment)
        (HistoryFallbacks.classifyBanner "Request timeout" true) :=
  C8_errorFallback.1 100 storeHistoryPlain "Request timeout" true [bookingPlain] 0
    (by decide) (by decide)

/-- Claim C9: the three categories are pairwise disjoint in both
categorizers; in the Dashboard version every booking whose resolved date
is a definite instant lands in exactly one category (the three bands cover
all of time), while in the History version a booking dated strictly before
midnight 30 days ago or strictly after the end of the 30th day ahead lands
in no category. -/
theorem C9_categorize :
    (∀ (s : Int) (bs : List Booking) (b : Booking),
      b ∈ (DashboardFallbacks.categorizeBookings s bs).1 →
        b ∉ (DashboardFallbacks.categorizeBookings s bs).2.1 ∧
        b ∉ (DashboardFallbacks.categorizeBookings s bs).2.2) ∧
    (∀ (s : Int) (bs : List Booking) (b : Booking),
      b ∈ (DashboardFallbacks.categorizeBookings s bs).2.1 →
        b ∉ (DashboardFallbacks.categorizeBookings s bs).2.2) ∧
    (∀ (s : Int) (bs : List Booking) (b : Booking) (v : Int),
      b ∈ bs → DashboardFallbacks.resolvedDate b = .instant v →
        b ∈ (DashboardFallbacks.categorizeBookings s bs).1 ∨
        b ∈ (DashboardFallbacks.categorizeBookings s bs).2.1 ∨
        b ∈ (DashboardFallbacks.categorizeBookings s bs).2.2) ∧
    (∀ (s : Int) (bs : List Booking) (b : Booking),
      b ∈ (HistoryFallbacks.categorizeBookings s bs).1 →
        b ∉ (HistoryFallbacks.categorizeBookings s bs).2.1 ∧
        b ∉ (HistoryFallbacks.categorizeBookings s bs).2.2) ∧
    (∀ (s : Int) (bs : List Booking) (b : Booking),
      b ∈ (HistoryFallbacks.categorizeBookings s bs).2.1 →
        b ∉ (HistoryFallbacks.categorizeBookings s bs).2.2) ∧
    (∀ (s : Int) (bs : List Booking) (b : Booking) (v : Int),
      b.date = .instant v → (v < s - 2592000000 ∨ v > s + 2592000000 + 86399999) →
        b ∉ (HistoryFallbacks.categorizeBookings s bs).1 ∧
        b ∉ (HistoryFallbacks.categorizeBookings s bs).2.1 ∧
        b ∉ (HistoryFallbacks.categorizeBookings s bs).2.2) := by
  refine ⟨fun s bs b hb => ?_, fun s bs b hb => ?_, fun s bs b v hmem hd => ?_,
    fun s bs b hb => ?_, fun s bs b hb => ?_, fun s bs b v hd hout => ?_⟩
  · cases hd : DashboardFallbacks.resolvedDate b <;>
      simp [DashboardFallbacks.categorizeBookings, List.mem_filter,
        dGe, dLe, dGt, dLt, hd] at hb ⊢
    omega
  · cases hd : DashboardFallbacks.resolvedDate b <;>
      simp [DashboardFallbacks.categorizeBookings, List.mem_filter,
        dGe, dLe, dGt, dLt, hd] at hb ⊢
    omega
  · simp [DashboardFallbacks.categorizeBookings, List.mem_filter,
      dGe, dLe, dGt, dLt, hd, hmem]
    omega
  · cases hd : b.date <;>
      simp [HistoryFallbacks.categorizeBookings, List.mem_filter,
        dGe, dLe, dGt, dLt, hd] at hb ⊢
    omega
  · cases hd : b.date <;>
      simp [HistoryFallbacks.categorizeBookings, List.mem_filter,
        dGe, dLe, dGt, dLt, hd] at hb ⊢
    omega
  · simp [HistoryFallbacks.categorizeBookings, List.mem_filter,
      dGe, dLe, dGt, dLt, hd]
    omega

/-- Witness for C9: the plain booking dated at instant 1000 lands in one
of the three Dashboard categories for the day starting at 0. -/
theorem C9_categorize_witness :
    bookingPlain ∈ (DashboardFallbacks.categorizeBookings 0 [bookingPlain]).1 ∨
    bookingPlain ∈ (DashboardFallbacks.categorizeBookings 0 [bookingPlain]).2.1 ∨
    bookingPlain ∈ (DashboardFallbacks.categorizeBookings 0 [bookingPlain]).2.2 :=
  C9_categorize.2.2.1 0 [bookingPlain] bookingPlain 1000 (by simp) rfl

/-- Claim C5 counterexample: with email and a 10+ character dot-free token
present, a login timestamp of 0, and the clock at 25 hours (90000000 ms),
the claimed check (24-hour fallback window) is false, but the History
`validateSession` returns true — it has no login-timestamp fallback at
all. -/
theorem C5_session_counterexample :
    HistoryFallbacks.validateSession decodeNever 90000000
        (some "a@b.c") (some "abcdefghij1") = true ∧
    specSessionValid decodeNever 90000000
        (some "a@b.c") (some "abcdefghij1") (some 0) = false := by
  refine ⟨by decide, by decide⟩

/-- Claim C5 (amended): both session checks return false when the stored
email or token is absent.  The App composite check
(`validateSession && !checkTokenExpiry`) behaves as the claim states:
with a decodable `exp` claim it is valid iff `exp * 1000` is strictly
after now, and with a three-segment token without a claim — or a token
that is not three-segmented — it falls back to the 24-hour
login-timestamp window.  The History `validateSession`, however, rejects
a decodable claim only when `exp * 1000` is strictly before now (it still
accepts at exactly the expiry instant) and has no login-timestamp
fallback: any non-three-segment token is accepted outright. -/
theorem C5_session_amended :
    (∀ (d : String → Except Unit (Option Int)) (now : Int) (tok : Option String)
        (lt : Option Int), AppFallbacks.sessionValid d now none tok lt = false) ∧
    (∀ (d : String → Except Unit (Option Int)) (now : Int) (em : Option String)
        (lt : Option Int), AppFallbacks.sessionValid d now em none lt = false) ∧
    (∀ (d : String → Except Unit (Option Int)) (now : Int) (tok : Option String),
      HistoryFallbacks.validateSession d now none tok = false) ∧
    (∀ (d : String → Except Unit (Option Int)) (now : Int) (em : Option String),
      HistoryFallbacks.validateSession d now em none = false) ∧
    (∀ (d : String → Except Unit (Option Int)) (now : Int) em tk (lt : Option Int) p m s e,
      AppFallbacks.emailMatches em = true → 10 ≤ tk.length →
      jsSplit tk "." = [p, m, s] → d m = .ok (some e) →
      (AppFallbacks.sessionValid d now (some em) (some tk) lt = true ↔ now < e * 1000)) ∧
    (∀ (d : String → Except Unit (Option Int)) (now : Int) em tk (lt : Int),
      AppFallbacks.emailMatches em = true → 10 ≤ tk.length →
      (jsSplit tk ".").length ≠ 3 →
      (AppFallbacks.sessionValid d now (some em) (some tk) (some lt) = true ↔
        now - lt ≤ 86400000)) ∧
    (∀ (d : String → Except Unit (Option Int)) (now : Int) em tk (lt : Int) p m s,
      AppFallbacks.emailMatches em = true → 10 ≤ tk.length →
      jsSplit tk "." = [p, m, s] → d m = .ok none →
      (AppFallbacks.sessionValid d now (some em) (some tk) (some lt) = true ↔
        now - lt ≤ 86400000)) ∧
    (∀ (d : String → Except Unit (Option Int)) (now : Int) em tk p m s e,
      jsSplit tk "." = [p, m, s] → d m = .ok (some e) →
      (HistoryFallbacks.validateSession d now (some em) (some tk) = false ↔
        e * 1000 < now)) ∧
    (∀ (d : String → Except Unit (Option Int)) (now : Int) em tk,
      (jsSplit tk ".").length ≠ 3 →
      HistoryFallbacks.validateSession d now (some em) (some tk) = true) := by
  refine ⟨fun d now tok lt => by cases tok <;> rfl,
    fun d now em lt => by cases em <;> rfl,
    fun d now tok => by cases tok <;> rfl,
    fun d now em => by cases em <;> rfl,
    fun d now em tk lt p m s e hem hlen hsplit hdec => ?_,
    fun d now em tk lt hem hlen hseg => ?_,
    fun d now em tk lt p m s hem hlen hsplit hdec => ?_,
    fun d now em tk p m s e hsplit hdec => ?_,
    fun d now em tk hseg => ?_⟩
  · have h10 : ¬ tk.length < 10 := by omega
    simp [AppFallbacks.sessionValid, AppFallbacks.validateSession,
      AppFallbacks.checkTokenExpiry, hsplit, hdec, hem, h10]
  · have h10 : ¬ tk.length < 10 := by omega
    rcases hl : jsSplit tk "." with _ | ⟨a, _ | ⟨b, _ | ⟨c, _ | ⟨e4, rest⟩⟩⟩⟩
    · simp [AppFallbacks.sessionValid, AppFallbacks.validateSession,
        AppFallbacks.checkTokenExpiry, AppFallbacks.loginAgeExpired, hl, hem, h10]
    · simp [AppFallbacks.sessionValid, AppFallbacks.validateSession,
        AppFallbacks.checkTokenExpiry, AppFallbacks.loginAgeExpired, hl, hem, h10]
    · simp [AppFallbacks.sessionValid, AppFallbacks.validateSession,
        AppFallbacks.checkTokenExpiry, AppFallbacks.loginAgeExpired, hl, hem, h10]
    · exact absurd (by rw [hl]; rfl) hseg
    · simp [AppFallbacks.sessionValid, AppFallbacks.validateSession,
        AppFallbacks.checkTokenExpiry, AppFallbacks.loginAgeExpired, hl, hem, h10]
  · have h10 : ¬ tk.length < 10 := by omega
    simp [AppFallbacks.sessionValid, AppFallbacks.validateSession,
      AppFallbacks.checkTokenExpiry, AppFallbacks.loginAgeExpired, hsplit, hdec, hem, h10]
  · simp [HistoryFallbacks.validateSession, hsplit, hdec]
  · rcases hl : jsSplit tk "." with _ | ⟨a, _ | ⟨b, _ | ⟨c, _ | ⟨e4, rest⟩⟩⟩⟩
    · simp [HistoryFallbacks.validateSession, hl]
    · simp [HistoryFallbacks.validateSession, hl]
    · simp [HistoryFallbacks.validateSession, hl]
    · exact absurd (by rw [hl]; rfl) hseg
    · simp [HistoryFallbacks.validateSession, hl]

/-- Witness for C5 in a concrete decode environment (`atob` of the middle
segment yields the payload with `exp = 1`): at `now = 500` the App
composite check accepts the session, since the expiry instant 1000 is
still ahead. -/
theorem C5_session_witness :
    AppFallbacks.sessionValid decodeExpOne 500
      (some "a@b.c") (some "x.eyJleHAiOjF9.y") (some 0) = true :=
  (C5_session_amended.2.2.2.2.1 decodeExpOne 500 "a@b.c" "x.eyJleHAiOjF9.y" (some 0)
    "x" "eyJleHAiOjF9" "y" 1 (by decide) (by decide) rfl rfl).mpr
    (by decide)

/-- Shifting the start index out of a backoff-delay list:
the delays from attempt `i` over `j + 1` iterations are the delay of
attempt `i` followed by the delays from attempt `i + 1` over `j`. -/
theorem rangeMapShift (i j : Nat) :
    (List.range (j + 1)).map (fun k => 1000 * 2 ^ (i + k)) =
      (1000 * 2 ^ i) :: (List.range j).map (fun k => 1000 * 2 ^ (i + 1 + k)) := by
  rw [List.range_succ_eq_map, List.map_cons, List.map_map]
  congr 1
  refine List.map_congr_left fun a ha => ?_
  have hexp : i + (a + 1) = i + 1 + a := by omega
  simp [Function.comp, hexp]

/-- If attempt `i + j` of the History retry loop fails with an
auth-classified error and every earlier attempt failed with a non-auth
error, the loop stops right there: `j + 1` invocations, the geometric
delays of the first `j` attempts, and the auth error propagated. -/
theorem historyRetryGo_authStop :
    ∀ (j : Nat) {α : Type} (fn : Nat → Except String α) (i r : Nat) (e : String),
      j < r →
      (∀ k, k < j → ∃ e2, fn (i + k) = .error e2 ∧
        HistoryFallbacks.isAuthMessage e2 = false) →
      fn (i + j) = .error e → HistoryFallbacks.isAuthMessage e = true →
      HistoryFallbacks.retryGo fn i r =
        (.error (some e), j + 1, (List.range j).map fun k => 1000 * 2 ^ (i + k)) := by
  intro j
  induction j with
  | zero =>
    intro α fn i r e hjr hpre hfe hauth
    simp only [Nat.add_zero] at hfe
    cases r with
    | zero => omega
    | succ r1 =>
      cases r1 with
      | zero => simp [HistoryFallbacks.retryGo, hfe]
      | succ r2 => simp [HistoryFallbacks.retryGo, hfe, hauth]
  | succ j ih =>
    intro α fn i r e hjr hpre hfe hauth
    cases r with
    | zero => omega
    | succ r1 =>
      cases r1 with
      | zero => omega
      | succ r2 =>
        obtain ⟨e0, hfe0, hna0⟩ := hpre 0 (by omega)
        simp only [Nat.add_zero] at hfe0
        have hrec := ih fn (i + 1) (r2 + 1) e (by omega)
          (fun k hk => by
            obtain ⟨e2, h1, h2⟩ := hpre (k + 1) (by omega)
            exact ⟨e2, by rw [show i + 1 + k = i + (k + 1) by omega]; exact h1, h2⟩)
          (by rw [show i + 1 + j = i + (j + 1) by omega]; exact hfe)
          hauth
        simp [HistoryFallbacks.retryGo, hfe0, hna0, hrec, rangeMapShift]

/-- If every attempt of the History retry loop over `r` iterations fails
with a non-auth error, the loop runs all `r` iterations, waits the
geometric delays between them, and throws the last error. -/
theorem historyRetryGo_allFail :
    ∀ (r : Nat) {α : Type} (fn : Nat → Except String α) (i : Nat) (e : String),
      1 ≤ r →
      (∀ k, k < r → ∃ e2, fn (i + k) = .error e2 ∧
        HistoryFallbacks.isAuthMessage e2 = false) →
      fn (i + (r - 1)) = .error e →
      HistoryFallbacks.retryGo fn i r =
        (.error (some e), r, (List.range (r - 1)).map fun k => 1000 * 2 ^ (i + k)) := by
  intro r
  induction r with
  | zero => omega
  | succ r1 ih =>
    intro α fn i e _ hpre hfe
    cases r1 with
    | zero =>
      simp only [Nat.add_zero, Nat.sub_self] at hfe ⊢
      simp [HistoryFallbacks.retryGo, hfe]
    | succ r2 =>
      obtain ⟨e0, hfe0, hna0⟩ := hpre 0 (by omega)
      simp only [Nat.add_zero] at hfe0
      have hrec := ih fn (i + 1) e (by omega)
        (fun k hk => by
          obtain ⟨e2, h1, h2⟩ := hpre (k + 1) (by omega)
          exact ⟨e2, by rw [show i + 1 + k = i + (k + 1) by omega]; exact h1, h2⟩)
        (by rw [show i + 1 + (r2 + 1 - 1) = i + (r2 + 2 - 1) by omega]; exact hfe)
      simp only [Nat.add_one_sub_one] at hrec ⊢
      simp [HistoryFallbacks.retryGo, hfe0, hna0, hrec, rangeMapShift]

/-- If attempt `i + j` of the History retry loop succeeds and every
earlier attempt failed with a non-auth error, the loop returns that value
after `j + 1` invocations and the geometric delays of the first `j`. -/
theorem historyRetryGo_success :
    ∀ (j : Nat) {α : Type} (fn : Nat → Except String α) (i r : Nat) (a : α),
      j < r →
      (∀ k, k < j → ∃ e2, fn (i + k) = .error e2 ∧
        HistoryFallbacks.isAuthMessage e2 = false) →
      fn (i + j) = .ok a →
      HistoryFallbacks.retryGo fn i r =
        (.ok a, j + 1, (List.range j).map fun k => 1000 * 2 ^ (i + k)) := by
  intro j
  induction j with
  | zero =>
    intro α fn i r a hjr hpre hfa
    simp only [Nat.add_zero] at hfa
    cases r with
    | zero => omega
    | succ r1 =>
      cases r1 with
      | zero => simp [HistoryFallbacks.retryGo, hfa]
      | succ r2 => simp [HistoryFallbacks.retryGo, hfa]
  | succ j ih =>
    intro α fn i r a hjr hpre hfa
    cases r with
    | zero => omega
    | succ r1 =>
      cases r1 with
      | zero => omega
      | succ r2 =>
        obtain ⟨e0, hfe0, hna0⟩ := hpre 0 (by omega)
        simp only [Nat.add_zero] at hfe0
        have hrec := ih fn (i + 1) (r2 + 1) a (by omega)
          (fun k hk => by
            obtain ⟨e2, h1, h2⟩ := hpre (k + 1) (by omega)
            exact ⟨e2, by rw [show i + 1 + k = i + (k + 1) by omega]; exact h1, h2⟩)
          (by rw [show i + 1 + j = i + (j + 1) by omega]; exact hfa)
        simp [HistoryFallbacks.retryGo, hfe0, hna0, hrec, rangeMapShift]

/-- If every attempt of the simple Dashboard retry loop over `r`
iterations fails — auth errors included, since this version classifies
nothing — the loop runs all `r` iterations with the geometric delays and
throws the last error. -/
theorem dashboardRetryGo_allFail :
    ∀ (r : Nat) {α : Type} (fn : Nat → Except String α) (i : Nat) (e : String),
      1 ≤ r →
      (∀ k, k < r → ∃ e2, fn (i + k) = .error e2) →
      fn (i + (r - 1)) = .error e →
      DashboardFallbacks.retryGo fn i r =
        (.error e, r, (List.range (r - 1)).map fun k => 1000 * 2 ^ (i + k)) := by
  intro r
  induction r with
  | zero => omega
  | succ r1 ih =>
    intro α fn i e _ hpre hfe
    cases r1 with
    | zero =>
      simp only [Nat.add_zero, Nat.sub_self] at hfe ⊢
      simp [DashboardFallbacks.retryGo, hfe]
    | succ r2 =>
      obtain ⟨e0, hfe0⟩ := hpre 0 (by omega)
      simp only [Nat.add_zero] at hfe0
      have hrec := ih fn (i + 1) e (by omega)
        (fun k hk => by
          obtain ⟨e2, h1⟩ := hpre (k + 1) (by omega)
          exact ⟨e2, by rw [show i + 1 + k = i + (k + 1) by omega]; exact h1⟩)
        (by rw [show i + 1 + (r2 + 1 - 1) = i + (r2 + 2 - 1) by omega]; exact hfe)
      simp only [Nat.add_one_sub_one] at hrec ⊢
      simp [DashboardFallbacks.retryGo, hfe0, hrec, rangeMapShift]

/-- Claim C3 counterexample: the simple Dashboard retry wrapper
(Dashboard.jsx) re-invokes the operation even on an error classified as an
authentication failure — with an always-failing session-expired operation
and the default `maxRetries = 2` it performs 2 invocations and one
backoff delay, where the claim demands a single invocation. -/
theorem C3_retry_counterexample :
    HistoryFallbacks.isAuthMessage "Session expired. Please login again." = true ∧
    (DashboardFallbacks.retry
      (fun _ => (.error "Session expired. Please login again." : Except String Unit))
      2).2.1 = 2 ∧
    (DashboardFallbacks.retry
      (fun _ => (.error "Session expired. Please login again." : Except String Unit))
      2).2.2 = [1000] := by
  refine ⟨by decide, by decide, by decide⟩

/-- Claim C3 (amended): the History retry wrapper stops immediately — one
invocation of the failing attempt, no further re-invocation — as soon as
an error is auth-classified (message containing `401` or
`Session expired`); when every attempt fails with a non-auth error it
re-invokes the operation `maxRetries - 1` additional times with backoff
delays `1000 * 2^attempt`, which are strictly increasing, and propagates
the last error; it returns the value of the first successful attempt.
The simple Dashboard retry wrapper performs no classification and retries
every error, auth failures included, for `maxRetries - 1` additional
invocations with the same backoff. -/
theorem C3_retry_amended :
    (∀ {α : Type} (fn : Nat → Except String α) (n j : Nat) (e : String),
      j < n →
      (∀ k, k < j → ∃ e2, fn k = .error e2 ∧
        HistoryFallbacks.isAuthMessage e2 = false) →
      fn j = .error e → HistoryFallbacks.isAuthMessage e = true →
      HistoryFallbacks.retry fn n =
        (.error (some e), j + 1, (List.range j).map fun k => 1000 * 2 ^ k)) ∧
    (∀ {α : Type} (fn : Nat → Except String α) (n : Nat) (e : String),
      1 ≤ n →
      (∀ k, k < n → ∃ e2, fn k = .error e2 ∧
        HistoryFallbacks.isAuthMessage e2 = false) →
      fn (n - 1) = .error e →
      HistoryFallbacks.retry fn n =
        (.error (some e), n, (List.range (n - 1)).map fun k => 1000 * 2 ^ k)) ∧
    (∀ {α : Type} (fn : Nat → Except String α) (n j : Nat) (a : α),
      j < n →
      (∀ k, k < j → ∃ e2, fn k = .error e2 ∧
        HistoryFallbacks.isAuthMessage e2 = false) →
      fn j = .ok a →
      HistoryFallbacks.retry fn n =
        (.ok a, j + 1, (List.range j).map fun k => 1000 * 2 ^ k)) ∧
    (∀ m : Nat, ((List.range m).map fun k => 1000 * 2 ^ k).Pairwise (· < ·)) ∧
    (∀ {α : Type} (fn : Nat → Except String α) (n : Nat) (e : String),
      1 ≤ n → (∀ k, k < n → ∃ e2, fn k = .error e2) → fn (n - 1) = .error e →
      DashboardFallbacks.retry fn n =
        (.error e, n, (List.range (n - 1)).map fun k => 1000 * 2 ^ k)) := by
  refine ⟨?_, ?_, ?_, ?_, ?_⟩
  · intro α fn n j e hj hpre hfe hauth
    have h := historyRetryGo_authStop j fn 0 n e hj
      (fun k hk => by simpa using hpre k hk) (by simpa using hfe) hauth
    simpa [HistoryFallbacks.retry] using h
  · intro α fn n e hn hpre hfe
    have h := historyRetryGo_allFail n fn 0 e hn
      (fun k hk => by simpa using hpre k hk) (by simpa using hfe)
    simpa [HistoryFallbacks.retry] using h
  · intro α fn n j a hj hpre hfa
    have h := historyRetryGo_success j fn 0 n a hj
      (fun k hk => by simpa using hpre k hk) (by simpa using hfa)
    simpa [HistoryFallbacks.retry] using h
  · intro m
    refine (List.pairwise_lt_range m).map _ fun a b hab => ?_
    have h2 : (2 : Nat) ^ a < 2 ^ b := Nat.pow_lt_pow_right (by omega) hab
    exact mul_lt_mul_of_pos_left h2 (by omega)
  · intro α fn n e hn hpre hfe
    have h := dashboardRetryGo_allFail n fn 0 e hn
      (fun k hk => by simpa using hpre k hk) (by simpa using hfe)
    simpa [DashboardFallbacks.retry] using h

/-- Witness for C3: an operation succeeding on its first attempt is
invoked exactly once by the History wrapper with no delays. -/
theorem C3_retry_witness :
    HistoryFallbacks.retry (fun _ => (.ok () : Except String Unit)) 3 = (.ok (), 1, []) := by
  have h := C3_retry_amended.2.2.1 (fun _ => (.ok () : Except String Unit)) 3 0 ()
    (by omega) (fun k hk => absurd hk (by omega)) rfl
  simpa using h

end Theorems

end OKZ
